import Mathlib

/-!
# ReguChain — verification of the ingestion/risk/alerting spec against the code

Shallow embedding of the ReguChain frontend API layer and UI components
(`src/frontend/lib/api.js`, `src/frontend/components/*.js`) and, for the
backend components whose code is not part of the repository snapshot
(Stream Engine, Risk Scorer, Alert Generator, Wallet Tracker), models built
from the specification's own wording, each marked `Modelled from the spec:`.

JavaScript functions that can throw are embedded as functions into
`Except JsError α`; the outcome of a network request is an explicit
`FetchOutcome` value (success body / HTTP error status / transport error),
mirroring axios, which rejects the promise on any non-2xx status or
transport failure.
-/

namespace ReguChain

/-- A minimal JSON value type for response bodies and payloads. -/
inductive Json where
  | null : Json
  | bool (b : Bool) : Json
  | num (n : Int) : Json
  | str (s : String) : Json
  | arr (elems : List Json) : Json
  | obj (fields : List (String × Json)) : Json

/-- Errors a JS API call can raise: an aborted request, a transport
(network) failure, or an HTTP error status (axios rejects on non-2xx). -/
inductive JsError where
  | abortError : JsError
  | networkError : JsError
  | httpError (status : Nat) : JsError
deriving DecidableEq, Repr

/-- The outcome of one network request, as seen by the caller of
`api.get`/`api.post`/`fetch`. -/
inductive FetchOutcome where
  | ok (body : Json) : FetchOutcome
  | httpError (status : Nat) : FetchOutcome
  | networkError : FetchOutcome
  | aborted : FetchOutcome

/-- `api.get(endpoint)` / `fetch(endpoint)`: returns the response body on a
2xx status and throws otherwise ( axios semantics). The endpoint string is
carried so each embedded API helper records which URL it requests. -/
def apiGet (_endpoint : String) : FetchOutcome → Except JsError Json
  | .ok body => .ok body
  | .httpError s => .error (.httpError s)
  | .networkError => .error .networkError
  | .aborted => .error .abortError

/-- JS `try { body } catch (e) { handler }`. -/
def jsTryCatch (body : Except JsError α) (handler : JsError → Except JsError α) :
    Except JsError α :=
  match body with
  | .ok v => .ok v
  | .error e => handler e

/-- The literal object `{ status: 'error', services: {} }` returned by
`checkHealth`'s catch branch (`src/frontend/lib/api.js:117`). -/
def healthErrorObject : Json :=
  .obj [("status", .str "error"), ("services", .obj [])]

/-- `checkHealth` (`src/frontend/lib/api.js:111-119`): GET `/api/health`,
return `response.data`; on any error return `{status:'error', services:{}}`
instead of rethrowing. -/
def checkHealth (outcome : FetchOutcome) : Except JsError Json :=
  jsTryCatch (apiGet "/api/health" outcome) (fun _ => .ok healthErrorObject)

/-- `getStatus` (`src/frontend/lib/api.js:99-107`): GET `/api/status`,
return `response.data`; on error log and rethrow. -/
def getStatus (outcome : FetchOutcome) : Except JsError Json :=
  jsTryCatch (apiGet "/api/status" outcome) (fun e => .error e)

end ReguChain

namespace ReguChain

/-! ## getStreamRecords (`src/frontend/lib/api.js:253-263`) -/

/-- The options object of `getStreamRecords(streamName, { limit = 10,
walletAddress = null } = {})`. `none` models JS `null`/absent. -/
structure StreamOpts where
  limit : Option Nat := none
  walletAddress : Option String := none
deriving DecidableEq, Repr

/-- A query-parameter value. -/
inductive ParamVal where
  | nat (n : Nat) : ParamVal
  | str (s : String) : ParamVal
deriving DecidableEq, Repr

/-- JS truthiness of a (possibly null) string: `null`, `undefined` and the
empty string are falsy. -/
def jsTruthyStr : Option String → Bool
  | none => false
  | some s => s ≠ ""

/-- The `params` object built by `getStreamRecords`: always `{ limit }`
(with `limit` defaulting to `10`), and `params.wallet_address = walletAddress`
only when `if (walletAddress)` — JS truthiness — holds. -/
def getStreamRecordsParams (opts : Option StreamOpts) : List (String × ParamVal) :=
  let o := opts.getD {}
  let lim := o.limit.getD 10
  [("limit", .nat lim)] ++
    (if jsTruthyStr o.walletAddress then
      [("wallet_address", .str (o.walletAddress.getD ""))]
    else [])

/-- The URL requested by `getStreamRecords` for stream `name`. -/
def getStreamRecordsUrl (name : String) : String :=
  "/api/realtime/streams/" ++ name

/-- `getStreamRecords` body: GET the stream URL with the params above and
return `res.data` unchanged; on error log and rethrow. -/
def getStreamRecords (name : String) (_opts : Option StreamOpts)
    (outcome : FetchOutcome) : Except JsError Json :=
  jsTryCatch (apiGet (getStreamRecordsUrl name) outcome) (fun e => .error e)

/-- Whether a parameter list carries a parameter of the given key. -/
def hasParam (params : List (String × ParamVal)) (key : String) : Bool :=
  params.any (fun p => p.1 == key)

end ReguChain

namespace ReguChain

/-! ## Risk verdict mapping (`src/frontend/components/RiskGauge.js:7-15`,
`src/unnamed/part_004:35-39`) -/

/-- The three-way verdict. -/
inductive RiskVerdict where
  | high : RiskVerdict
  | medium : RiskVerdict
  | low : RiskVerdict
deriving DecidableEq, Repr

/-- `getRiskLabel` (`src/unnamed/part_004:35-39`): `score >= 70 → 'HIGH
RISK'`, `score >= 40 → 'MEDIUM RISK'`, otherwise `'LOW RISK'`. -/
def getRiskLabel (score : Int) : RiskVerdict :=
  if score ≥ 70 then .high
  else if score ≥ 40 then .medium
  else .low

/-- The label string shown by `getRiskLabel` and by `RiskGauge`'s `useMemo`
branch (`src/frontend/components/RiskGauge.js:7-15`), which uses the same
thresholds (`score >= 70`, `else score >= 40`, `else`). -/
def riskGaugeLabel (score : Int) : String :=
  if score ≥ 70 then "HIGH RISK"
  else if score ≥ 40 then "MEDIUM RISK"
  else "LOW RISK"

/-- String rendering of a verdict, as both components print it. -/
def RiskVerdict.label : RiskVerdict → String
  | .high => "HIGH RISK"
  | .medium => "MEDIUM RISK"
  | .low => "LOW RISK"

end ReguChain

namespace ReguChain

/-! ## AIAgentChat failure handling
(`src/frontend/components/AIAgentChat.js:15-34` and `:222-250`) -/

/-- One entry of the `SAMPLE_RESPONSES` array. `confidenceHundredths` is the
`metadata.confidence` value scaled by 100 (the source stores 0.6 / 0.55 /
0.5). -/
structure SampleResponse where
  id : String
  role : String
  content : String
  confidenceHundredths : Option Nat
deriving DecidableEq, Repr

/-- The `SAMPLE_RESPONSES` constant of `AIAgentChat`
(`src/frontend/components/AIAgentChat.js:15-34`): three fixed assistant
messages with fabricated analysis text (sample 1 even carries a fabricated
"Risk Score: 42/100"). -/
def SAMPLE_RESPONSES : List SampleResponse :=
  [ { id := "s-1", role := "assistant",
      content := "Here is an analysis summary based on typical patterns:\n\n- Risk Score: 42/100 (Medium)\n- Notable factors: interaction with high-risk labeled addresses, multiple small inbound transactions\n- Recommendation: Enable enhanced monitoring and review large counterparties\n\nWould you like me to run a deeper transaction-level analysis?",
      confidenceHundredths := some 60 },
    { id := "s-2", role := "assistant",
      content := "News-aware response:\n\nRecent regulatory reports indicate increased enforcement in the crypto sector. Based on that, consider freezing high-risk counterparties and performing an AML review.",
      confidenceHundredths := some 55 },
    { id := "s-3", role := "assistant",
      content := "Quick summary:\n\nNo immediate sanctions found for this address in public watchlists (sample data). Suggested next steps: verify counterparties, cross-check with KYC records, and set up alerts.",
      confidenceHundredths := some 50 } ]

/-- The contents of the three synthetic placeholder responses. -/
def syntheticContents : List String := SAMPLE_RESPONSES.map (·.content)

/-- A chat message appended to the message list. -/
structure ChatMessage where
  role : String
  content : String
  confidenceHundredths : Option Nat
deriving DecidableEq, Repr

/-- What the `catch` branch of `sendMessage`
(`src/frontend/components/AIAgentChat.js:222-250`) appends to the chat when
the POST `/api/agent/chat` request fails with error `err`:
* an `AbortError` returns early — nothing is appended;
* any other error, while the component is mounted, appends
  `SAMPLE_RESPONSES[Math.floor(Math.random() * SAMPLE_RESPONSES.length)]`
  (index `randIdx`) as an assistant message; there is no branch that
  renders an explicit failure / "source unavailable" message. -/
def handleSendFailure (err : JsError) (randIdx : Fin 3) (mounted : Bool) :
    Option ChatMessage :=
  match err with
  | .abortError => none
  | _ =>
    if mounted then
      let sample := SAMPLE_RESPONSES.get (Fin.cast rfl randIdx)
      some { role := "assistant", content := sample.content,
             confidenceHundredths := sample.confidenceHundredths }
    else none

/-- The fabricated risk score the catch branch passes to
`onAnalysisResult` when the chosen sample's content mentions "risk":
`sample.metadata?.confidence ? Math.round(sample.metadata.confidence * 100)
: 50` (`src/frontend/components/AIAgentChat.js:243-249`). -/
def fabricatedRiskScore (sample : SampleResponse) : Nat :=
  match sample.confidenceHundredths with
  | some c => c
  | none => 50

end ReguChain

namespace ReguChain

/-! ## WalletRealtimePanel polling lifecycle (`src/unnamed/part_005:40-57`)

The `useEffect` body launches an async IIFE that (when a wallet is
connected) awaits `startRealtime`, `connectWalletRealtime` and `fetchData`
and only then runs `intervalId = setInterval(() => fetchData(walletAddress),
30000)`. The effect's cleanup, returned synchronously, is
`() => intervalId && clearInterval(intervalId)`. We model one effect run as
a small event system: `setupComplete` is the async continuation reaching the
`setInterval` line, `cleanup` is React invoking the cleanup (wallet
disconnected / component unmounted), and `tick` is the 30-second timer
firing. -/

/-- The polling cadence passed to `setInterval` (`src/unnamed/part_005:54`). -/
def POLL_INTERVAL_MS : Nat := 30000

/-- Events in the life of one `WalletRealtimePanel` effect run. -/
inductive PanelEvent where
  | setupComplete : PanelEvent
  | cleanup : PanelEvent
  | tick : PanelEvent
deriving DecidableEq, Repr

/-- Observable state of one effect run: whether the interval is currently
scheduled, whether the cleanup has run (wallet disconnected), how many
polls (`fetchData` calls) fired in total and how many fired after the
cleanup had already run. -/
structure PanelState where
  intervalSet : Bool
  cleanedUp : Bool
  polls : Nat
  pollsAfterCleanup : Nat
deriving DecidableEq, Repr

/-- Initial state of an effect run. -/
def panelInit : PanelState :=
  { intervalSet := false, cleanedUp := false, polls := 0, pollsAfterCleanup := 0 }

/-- One step of the effect-run model:
* `setupComplete`: the async IIFE executes `intervalId = setInterval(...)`.
  The source guards nothing here — the line runs even if the cleanup has
  already been invoked, so the interval is (re)scheduled unconditionally.
* `cleanup`: `intervalId && clearInterval(intervalId)` — the interval is
  cleared only if it has already been set.
* `tick`: if an interval is scheduled, `fetchData(walletAddress)` fires. -/
def panelStep (s : PanelState) : PanelEvent → PanelState
  | .setupComplete => { s with intervalSet := true }
  | .cleanup => { s with cleanedUp := true, intervalSet := false }
  | .tick =>
    if s.intervalSet then
      { s with polls := s.polls + 1,
               pollsAfterCleanup :=
                 s.pollsAfterCleanup + (if s.cleanedUp then 1 else 0) }
    else s

/-- Run one effect instance. `connected` is `isConnected` (`!!walletAddress`):
when it is false the IIFE returns before any setup (`if (!isConnected)
return;`, `src/unnamed/part_005:43`), so `setupComplete` never happens and
ticks find no interval. -/
def runPanel (connected : Bool) (evs : List PanelEvent) : PanelState :=
  evs.foldl
    (fun s ev =>
      match ev with
      | .setupComplete => if connected then panelStep s .setupComplete else s
      | _ => panelStep s ev)
    panelInit

end ReguChain

namespace ReguChain

/-! ## fetchRealtimeNews (`src/frontend/lib/api.js:266-290`) -/

/-- One element of the `/api/status` response's `last_updates` array, with
the fields `fetchRealtimeNews` reads. `source` is optional because the code
accesses it as `item.source?.includes(...)`. -/
structure UpdateItem where
  id : String
  title : String
  source : Option String
  type : String
  timestamp : String
  link : String
deriving DecidableEq, Repr

/-- JS `haystack.includes(needle)` on strings: substring containment. -/
def jsIncludes (haystack needle : String) : Bool :=
  (haystack.toList.tails).any (fun t => needle.toList.isPrefixOf t)

/-- The article shape `fetchRealtimeNews` maps each matching update to. -/
structure NewsArticle where
  id : String
  title : String
  source : Option String
  published_at : String
  description : String
  url : String
  verification_url : String
deriving DecidableEq, Repr

/-- The result object `{ count, articles }`. -/
structure NewsResult where
  count : Nat
  articles : List NewsArticle
deriving DecidableEq, Repr

/-- The filter predicate of `fetchRealtimeNews`
(`src/frontend/lib/api.js:274`): `item.type === 'regulatory_news' ||
item.source?.includes('Reuters') || item.source?.includes('Bloomberg') ||
item.source?.includes('Commission')`. -/
def isNewsItem (item : UpdateItem) : Bool :=
  item.type == "regulatory_news" ||
    (match item.source with
     | some s => jsIncludes s "Reuters" || jsIncludes s "Bloomberg" ||
         jsIncludes s "Commission"
     | none => false)

/-- `fetchRealtimeNews(query, pageSize)` (`src/frontend/lib/api.js:266-290`):
GETs `/api/status` (the `query` and `pageSize` arguments appear nowhere in
the body), takes `res.data.last_updates || []`, filters with `isNewsItem`,
maps each item to an article and returns `{ count, articles }`. We embed
the success path as a function of the parsed `last_updates` field (`none`
models a response without `last_updates`); on request failure the source
rethrows. -/
def fetchRealtimeNews (_query : String) (_pageSize : Nat)
    (lastUpdates : Option (List UpdateItem)) : NewsResult :=
  let updates := lastUpdates.getD []
  let newsItems := (updates.filter isNewsItem).map fun item =>
    { id := item.id, title := item.title, source := item.source,
      published_at := item.timestamp, description := item.title,
      url := item.link, verification_url := item.link : NewsArticle }
  { count := newsItems.length, articles := newsItems }

end ReguChain

namespace ReguChain

/-! ## Risk Scorer — spec-modelled (spec §4.4)

The backend Risk Scorer's code is not part of the repository snapshot
(only the frontend that renders its output is under `src/`), so it is
modelled from the specification's wording. -/

/-- Modelled from the spec: the input context of `score` — matching
sanctioned-entity Documents (if any), aggregate transaction value,
counterparty overlap with known high-risk addresses, and recency-decayed
news sentiment (spec §4.4). The backend risk-scorer source is missing from
the snapshot. -/
structure RiskContext where
  sanctionMatches : List String
  totalTxValue : Nat
  counterpartyOverlap : Nat
  newsSentiment : Nat
deriving DecidableEq, Repr

/-- Modelled from the spec: the "large fixed weight, e.g. +60" a sanctions
match contributes (spec §4.4). -/
def SANCTIONS_WEIGHT : Nat := 60

/-- Modelled from the spec: the cap on the news-sentiment contribution
("+weight up to a cap", spec §4.4). -/
def NEWS_SENTIMENT_CAP : Nat := 15

/-- Modelled from the spec: "aggregate transaction value thresholds (tiered
additive weights)" (spec §4.4). -/
def valueTierWeight (v : Nat) : Nat :=
  if v ≥ 1000 then 25 else if v ≥ 100 then 15 else if v ≥ 10 then 8 else 0

/-- Modelled from the spec: the list of (reason, contribution-weight) pairs
of a context, in their insertion order (sanctions, then transaction value,
then counterparty overlap, then news sentiment — spec §4.4 lists the
inputs in this order). -/
def contributions (c : RiskContext) : List (String × Nat) :=
  (if c.sanctionMatches.isEmpty then [] else [("sanctions_match", SANCTIONS_WEIGHT)]) ++
    (if valueTierWeight c.totalTxValue == 0 then []
     else [("high_value_transactions", valueTierWeight c.totalTxValue)]) ++
    (if c.counterpartyOverlap == 0 then []
     else [("high_risk_counterparties", 10 * min c.counterpartyOverlap 3)]) ++
    (if c.newsSentiment == 0 then []
     else [("negative_news_sentiment", min c.newsSentiment NEWS_SENTIMENT_CAP)])

/-- The ordering on index-tagged contributions `(insertionIndex, (reason,
weight))`: higher weight first; equal weights ordered by insertion index
("reasons sorted by contribution weight descending, ties broken by
insertion order", spec §4.4). -/
def reasonOrder (a b : Nat × String × Nat) : Prop :=
  b.2.2 < a.2.2 ∨ (a.2.2 = b.2.2 ∧ a.1 ≤ b.1)

instance : DecidableRel reasonOrder := fun a b => by
  unfold reasonOrder; exact inferInstance

instance : IsTotal (Nat × String × Nat) reasonOrder := by
  constructor; intro a b; unfold reasonOrder; omega

instance : IsTrans (Nat × String × Nat) reasonOrder := by
  constructor; intro a b c hab hbc; unfold reasonOrder at *; omega

/-- The contributions of a context tagged with their insertion index and
stably sorted by descending weight. -/
def sortedContributions (c : RiskContext) : List (Nat × String × Nat) :=
  List.insertionSort reasonOrder (contributions c).enum

/-- Modelled from the spec: `score(context) -> (score:int[0,100],
reasons:[string])` — sum of contribution weights clamped to [0,100],
reasons sorted by contribution weight descending with ties broken by
insertion order (spec §4.4). -/
def score (c : RiskContext) : Nat × List String :=
  (min ((contributions c).map (·.2)).sum 100,
    (sortedContributions c).map (·.2.1))

end ReguChain

namespace ReguChain

/-! ## Alert Generator — spec-modelled (spec §4.5, §3)

The backend Alert Generator's code is not part of the repository snapshot,
so it is modelled from the specification's wording. -/

/-- The Alert `type` enumeration (spec §3). -/
inductive AlertType where
  | sanctions_match : AlertType
  | high_value_tx : AlertType
  | velocity : AlertType
  | regulatory_update : AlertType
deriving DecidableEq, Repr

/-- String form of an alert type, used inside the dedup key. -/
def AlertType.keyPart : AlertType → String
  | .sanctions_match => "sanctions_match"
  | .high_value_tx => "high_value_tx"
  | .velocity => "velocity"
  | .regulatory_update => "regulatory_update"

/-- Modelled from the spec: a newly scored event presented to the Alert
Generator — its type, the wallet concerned (if any) and the evidence
Document/Transaction ids (spec §4.5). The backend alert-generator source is
missing from the snapshot. -/
structure AlertEvent where
  type : AlertType
  wallet : Option String
  evidence : List String
deriving DecidableEq, Repr

/-- An emitted Alert record (spec §3), identity = `dedupKey`. -/
structure Alert where
  dedupKey : String
  type : AlertType
  wallet : Option String
  evidence : List String
deriving DecidableEq, Repr

/-- Modelled from the spec: `dedup_key` is a "stable hash of type+wallet+
evidence signature", computed "from `(type, wallet_address, sorted evidence
ids)`" (spec §3, §4.5). We model the stable hash as the canonical string
of those components, with the evidence ids sorted. -/
def dedupKeyOf (e : AlertEvent) : String :=
  e.type.keyPart ++ "|" ++ e.wallet.getD "" ++ "|" ++
    String.intercalate "," (List.insertionSort (fun a b => a ≤ b) e.evidence)

/-- Modelled from the spec: emitting one scored event — "If an Alert with
that key already exists, no new Alert is emitted" (spec §4.5); otherwise
the Alert is appended. -/
def emitAlert (store : List Alert) (e : AlertEvent) : List Alert :=
  if store.any (fun a => a.dedupKey == dedupKeyOf e) then store
  else store ++
    [{ dedupKey := dedupKeyOf e, type := e.type, wallet := e.wallet,
       evidence := e.evidence }]

/-- The Alert store reached from the empty store by a sequence of scored
events (every reachable system state of the generator). -/
def runAlerts (events : List AlertEvent) : List Alert :=
  events.foldl emitAlert []

/-- A concrete scored event — the sanctions match for wallet `0xDEMO0001`
from the spec's end-to-end scenario (spec §8) — used to instantiate the
deduplication theorem. -/
def demoSanctionsEvent : AlertEvent :=
  { type := .sanctions_match, wallet := some "0xDEMO0001",
    evidence := ["ofac_sdn_1"] }

end ReguChain

namespace ReguChain

/-! ## Wallet Tracker cursor — spec-modelled (spec §4.6, §3)

The backend Wallet Tracker's code is not part of the repository snapshot,
so its cursor handling is modelled from the specification's wording. -/

/-- A chain transaction returned by a wallet poll (spec §3: identity =
`hash`). -/
structure ChainTx where
  hash : String
deriving DecidableEq, Repr

/-- Modelled from the spec: the cursor-relevant part of a
WalletSubscription — `tx_cursor` plus its persisted copy ("`tx_cursor`
advances strictly forward even across restarts (persisted)", spec §4.6).
The backend wallet-tracker source is missing from the snapshot. -/
structure WalletSub where
  address : String
  txCursor : Nat
  persistedCursor : Nat
deriving DecidableEq, Repr

/-- Modelled from the spec: one polling-cycle event for a subscription —
a successful poll that returned at least one new transaction (`success`),
a successful re-poll that found nothing new (`idle`, the idempotent case of
spec §4.1), a failed poll (`failure`, cursor untouched: "no silent data
loss, last successful cursor is retained", spec §7), or a crash/restart
that reloads the persisted cursor (`restart`). -/
inductive PollEvent where
  | success (first : ChainTx) (rest : List ChainTx) : PollEvent
  | idle : PollEvent
  | failure : PollEvent
  | restart : PollEvent
deriving DecidableEq, Repr

/-- Modelled from the spec: the cursor transition of one poll event. A
successful poll advances `tx_cursor` past the returned transactions and
persists it; an idle or failed poll leaves it unchanged; a restart reloads
the persisted value (spec §4.6). -/
def pollStep (w : WalletSub) : PollEvent → WalletSub
  | .success _ rest =>
    let c := w.txCursor + 1 + rest.length
    { w with txCursor := c, persistedCursor := c }
  | .idle => w
  | .failure => w
  | .restart => { w with txCursor := w.persistedCursor }

/-- Run a sequence of poll events from a subscription state. -/
def runPolls (w : WalletSub) (evs : List PollEvent) : WalletSub :=
  evs.foldl pollStep w

/-- The cursor invariant: the persisted copy always equals the in-memory
cursor — it is written at each successful poll, exactly as spec §4.6
requires for the cursor to survive restarts ("persisted"). A freshly
registered subscription satisfies it trivially. -/
def cursorInv (w : WalletSub) : Prop :=
  w.persistedCursor = w.txCursor

end ReguChain

namespace ReguChain

/-! ## Stream Engine backends — spec-modelled (spec §4.2)

Neither backend's code is in the repository snapshot; both are modelled
from the specification's wording. Per spec §3 a Document/Transaction id is
a "source-specific deterministic key" and a Document is "immutable once
created", so an item's id determines its payload; connector output is
modelled as batches of ids together with a global payload map. -/

/-- Modelled from the spec: the incremental backend's state — an
operator-graph table keyed by id, and the records emitted downstream in
order ("each new batch is diffed against table state; emits only
added/changed rows", spec §4.2). The incremental stream-engine source is
missing from the snapshot. -/
structure IncState where
  table : List (String × String)
  emitted : List (String × String)
deriving DecidableEq, Repr

/-- Modelled from the spec: the fallback backend's state — "an
in-memory/on-disk set of previously-seen ids per stream" and the records
emitted after manual delta computation (spec §4.2). The fallback
stream-engine source is missing from the snapshot. -/
structure FbState where
  seen : List String
  emitted : List (String × String)
deriving DecidableEq, Repr

/-- One incremental-backend batch: each row is diffed against the table;
rows whose id is already in the table are dropped, new rows are added to
the table and emitted. -/
def incStep (pay : String → String) (s : IncState) (batch : List String) : IncState :=
  batch.foldl
    (fun st i =>
      if (st.table.map Prod.fst).contains i then st
      else { table := st.table ++ [(i, pay i)],
             emitted := st.emitted ++ [(i, pay i)] })
    s

/-- One fallback-backend cycle: the connector's batch is re-pulled, the
delta against the seen-id set is computed manually, and only unseen rows
are published. -/
def fbStep (pay : String → String) (s : FbState) (batch : List String) : FbState :=
  batch.foldl
    (fun st i =>
      if st.seen.contains i then st
      else { seen := st.seen ++ [i],
             emitted := st.emitted ++ [(i, pay i)] })
    s

/-- Replay a whole window of connector output through the incremental
backend. -/
def incRun (pay : String → String) (batches : List (List String)) : IncState :=
  batches.foldl (incStep pay) ⟨[], []⟩

/-- Replay the same window through the fallback backend. -/
def fbRun (pay : String → String) (batches : List (List String)) : FbState :=
  batches.foldl (fbStep pay) ⟨[], []⟩

/-- The Alert set generated downstream from a backend's emitted records:
each record becomes a scored event and passes through the deduplicating
Alert Generator. -/
def recordAlerts (recs : List (String × String)) : List Alert :=
  runAlerts (recs.map fun r =>
    { type := .regulatory_update, wallet := none, evidence := [r.1] })

end ReguChain

namespace ReguChain

/-! ## Theorems -/

/-- C2: for every risk score `s` in [0,100] the verdict is HIGH exactly when
`s ≥ 70`, MEDIUM exactly when `40 ≤ s < 70`, and LOW exactly when `s < 40`;
the three cases are exhaustive and mutually exclusive (the mapping is a
total function into the three-constructor `RiskVerdict`), and `RiskGauge`'s
label agrees with `getRiskLabel`. -/
theorem riskVerdict_partition (s : Int) (h0 : 0 ≤ s) (h100 : s ≤ 100) :
    (getRiskLabel s = .high ↔ 70 ≤ s) ∧
    (getRiskLabel s = .medium ↔ 40 ≤ s ∧ s < 70) ∧
    (getRiskLabel s = .low ↔ s < 40) ∧
    riskGaugeLabel s = (getRiskLabel s).label := by
  unfold getRiskLabel riskGaugeLabel
  split_ifs with h1 h2 <;>
    simp only [RiskVerdict.label, true_and, and_true] <;>
    refine ⟨?_, ?_, ?_⟩ <;> simp <;> omega

/-- Witness for C2 at the concrete score 85. -/
theorem riskVerdict_partition_witness :
    (0 : Int) ≤ 85 ∧ (85 : Int) ≤ 100 ∧
      ((getRiskLabel 85 = .high ↔ 70 ≤ (85 : Int)) ∧
        (getRiskLabel 85 = .medium ↔ 40 ≤ (85 : Int) ∧ (85 : Int) < 70) ∧
        (getRiskLabel 85 = .low ↔ (85 : Int) < 40) ∧
        riskGaugeLabel 85 = (getRiskLabel 85).label) :=
  ⟨by norm_num, by norm_num, riskVerdict_partition 85 (by norm_num) (by norm_num)⟩

/-- C9: `checkHealth` is total and never propagates an exception — for
every request outcome it returns a value: the response body on success and
exactly `{status:'error', services:{}}` on any transport or server (HTTP)
error, including an aborted request. -/
theorem checkHealth_total (outcome : FetchOutcome) :
    checkHealth outcome =
      .ok (match outcome with
           | .ok body => body
           | _ => healthErrorObject) := by
  cases outcome <;> rfl

/-- C10: `fetchRealtimeNews` is independent of both of its arguments — for
any two (query, pageSize) pairs, the same `/api/status` response yields the
identical `{count, articles}` value. -/
theorem fetchRealtimeNews_ignores_args (q1 q2 : String) (p1 p2 : Nat)
    (lastUpdates : Option (List UpdateItem)) :
    fetchRealtimeNews q1 p1 lastUpdates = fetchRealtimeNews q2 p2 lastUpdates := rfl

end ReguChain

namespace ReguChain

/-- C7 counterexample: the claim says the query carries `wallet_address`
iff a non-null `walletAddress` was supplied, but the source guards with JS
truthiness (`if (walletAddress)`), so the supplied — non-null — empty
string produces no `wallet_address` parameter. -/
theorem getStreamRecords_nonnull_counterexample :
    hasParam
        (getStreamRecordsParams (some { limit := none, walletAddress := some "" }))
        "wallet_address" = false ∧
      (some "" : Option String) ≠ none := by
  constructor
  · rfl
  · simp

/-- C7 (amended): `getStreamRecords(s, {limit, walletAddress})` GETs
`/api/realtime/streams/{s}` with `limit` (defaulting to 10) always present,
with `wallet_address` present iff the supplied `walletAddress` is truthy
(non-null and non-empty), and returns the response body unchanged. -/
theorem getStreamRecords_params (name : String) (opts : Option StreamOpts)
    (body : Json) :
    (getStreamRecordsParams opts).head? =
        some ("limit", .nat ((opts.getD {}).limit.getD 10)) ∧
      (hasParam (getStreamRecordsParams opts) "wallet_address" = true ↔
        jsTruthyStr (opts.getD {}).walletAddress = true) ∧
      getStreamRecordsUrl name = "/api/realtime/streams/" ++ name ∧
      getStreamRecords name opts (.ok body) = .ok body := by
  refine ⟨rfl, ?_, rfl, rfl⟩
  by_cases h : jsTruthyStr (opts.getD {}).walletAddress <;>
    simp [getStreamRecordsParams, hasParam, h]

end ReguChain

namespace ReguChain

/-- C1 counterexample: when the POST `/api/agent/chat` request fails with a
network error (random index 0, component mounted), the chat appends the
first `SAMPLE_RESPONSES` entry — fabricated analysis text containing a
fabricated risk score — i.e. synthetic placeholder content, not an explicit
"source unavailable" state. -/
theorem chatFailure_counterexample :
    (handleSendFailure .networkError (0 : Fin 3) true).map (·.content) =
        some (SAMPLE_RESPONSES.get (0 : Fin 3)).content ∧
      (SAMPLE_RESPONSES.get (0 : Fin 3)).content ∈ syntheticContents := by
  constructor
  · rfl
  · exact List.mem_map_of_mem _ (List.get_mem _ _ _)

/-- C1 (amended): for every failing live-source chat request other than an
abort, with the component mounted, the UI appends an assistant message
whose content is exactly the randomly selected `SAMPLE_RESPONSES` entry's
synthetic placeholder content (there is no explicit failure state); an
aborted request appends nothing. -/
theorem chatFailure_appends_sample (err : JsError) (idx : Fin 3)
    (h : err ≠ .abortError) :
    handleSendFailure .abortError idx true = none ∧
      ∃ m, handleSendFailure err idx true = some m ∧
        m.role = "assistant" ∧
        m.content = (SAMPLE_RESPONSES.get (Fin.cast rfl idx)).content ∧
        m.content ∈ syntheticContents := by
  have hmem : (SAMPLE_RESPONSES.get (Fin.cast rfl idx)).content ∈ syntheticContents :=
    List.mem_map_of_mem _ (List.get_mem _ _ _)
  cases err with
  | abortError => exact absurd rfl h
  | networkError => exact ⟨rfl, _, rfl, rfl, rfl, hmem⟩
  | httpError s => exact ⟨rfl, _, rfl, rfl, rfl, hmem⟩

/-- Witness for C1 (amended) at a concrete HTTP 500 failure and random
index 1. -/
theorem chatFailure_appends_sample_witness :
    (JsError.httpError 500 ≠ JsError.abortError) ∧
      (handleSendFailure .abortError (1 : Fin 3) true = none ∧
        ∃ m, handleSendFailure (.httpError 500) (1 : Fin 3) true = some m ∧
          m.role = "assistant" ∧
          m.content = (SAMPLE_RESPONSES.get (Fin.cast rfl (1 : Fin 3))).content ∧
          m.content ∈ syntheticContents) :=
  ⟨by decide, chatFailure_appends_sample (.httpError 500) 1 (by decide)⟩

end ReguChain

namespace ReguChain

/-- C8: the code violates the claim. If the wallet disconnects (React runs
the effect cleanup) while the async setup is still awaiting its network
calls, `intervalId` is still `undefined`, the cleanup clears nothing, and
the `setInterval` executed afterwards is never cancelled: on the schedule
`[cleanup, setupComplete, tick]` a poll fires after the cleanup and the
interval is still scheduled. The final conjunct checks the part of the
claim the code does satisfy: with no wallet connected, no poll ever fires. -/
theorem panel_interval_leak :
    (runPanel true [.cleanup, .setupComplete, .tick]).pollsAfterCleanup = 1 ∧
      (runPanel true [.cleanup, .setupComplete, .tick]).intervalSet = true ∧
      (runPanel false [.setupComplete, .tick, .tick]).polls = 0 := by
  decide

end ReguChain

namespace ReguChain

/-- C4: the risk scorer is deterministic and pure — `score` is a function
of the context alone, so two calls on identical contexts return the
identical `(score, reasons)` pair; the reasons list is exactly the
contribution list sorted by contribution weight descending with ties broken
by insertion order (`reasonOrder` over index-tagged contributions), it is a
permutation of the insertion-ordered contributions, and the score is
clamped to at most 100. -/
theorem score_deterministic (c : RiskContext) :
    score c = score c ∧
      (score c).2 = (sortedContributions c).map (·.2.1) ∧
      List.Sorted reasonOrder (sortedContributions c) ∧
      List.Perm (sortedContributions c) (contributions c).enum ∧
      (score c).1 ≤ 100 :=
  ⟨rfl, rfl, List.sorted_insertionSort reasonOrder _,
    List.perm_insertionSort reasonOrder _, min_le_right _ _⟩

end ReguChain

namespace ReguChain

/-- One poll event preserves the cursor invariant and never moves the
cursor backwards. -/
theorem pollStep_inv_mono (w : WalletSub) (ev : PollEvent) (h : cursorInv w) :
    cursorInv (pollStep w ev) ∧ w.txCursor ≤ (pollStep w ev).txCursor := by
  cases ev <;> simp [pollStep, cursorInv] at h ⊢ <;> omega

/-- Any sequence of poll events preserves the cursor invariant and never
moves the cursor backwards. -/
theorem runPolls_inv_mono (evs : List PollEvent) : ∀ w : WalletSub, cursorInv w →
    cursorInv (runPolls w evs) ∧ w.txCursor ≤ (runPolls w evs).txCursor := by
  induction evs with
  | nil => exact fun w h => ⟨h, le_refl _⟩
  | cons ev evs ih =>
    intro w h
    have hstep := pollStep_inv_mono w ev h
    have hrest := ih (pollStep w ev) hstep.1
    exact ⟨hrest.1, le_trans hstep.2 hrest.2⟩

/-- C5: cursor monotonicity. From any subscription state satisfying the
persistence invariant, after any sequence of poll events (successes,
idle re-polls, failures, crash/restarts) the invariant still holds and the
`tx_cursor` of any later state is never less than that of any earlier
state; appending one successful poll (which returns at least one new
transaction) advances it strictly. -/
theorem cursor_monotonic (w : WalletSub) (evs more : List PollEvent)
    (t : ChainTx) (ts : List ChainTx) (h : cursorInv w) :
    cursorInv (runPolls w evs) ∧
      w.txCursor ≤ (runPolls w evs).txCursor ∧
      (runPolls w evs).txCursor ≤ (runPolls w (evs ++ more)).txCursor ∧
      (runPolls w evs).txCursor < (runPolls w (evs ++ [.success t ts])).txCursor := by
  obtain ⟨hinv, hmono⟩ := runPolls_inv_mono evs w h
  refine ⟨hinv, hmono, ?_, ?_⟩
  · simp only [runPolls, List.foldl_append]
    exact (runPolls_inv_mono more _ hinv).2
  · simp only [runPolls, List.foldl_append, List.foldl_cons, List.foldl_nil]
    simp only [pollStep]
    omega

/-- Witness for C5: a concrete subscription at cursor 5 run through a
successful poll, a restart and a failure, then one more successful poll. -/
theorem cursor_monotonic_witness :
    cursorInv { address := "0xw", txCursor := 5, persistedCursor := 5 } ∧
      (cursorInv (runPolls { address := "0xw", txCursor := 5, persistedCursor := 5 }
          [.success { hash := "h1" } [], .restart, .failure]) ∧
        (5 : Nat) ≤ (runPolls { address := "0xw", txCursor := 5, persistedCursor := 5 }
          [.success { hash := "h1" } [], .restart, .failure]).txCursor ∧
        (runPolls { address := "0xw", txCursor := 5, persistedCursor := 5 }
            [.success { hash := "h1" } [], .restart, .failure]).txCursor ≤
          (runPolls { address := "0xw", txCursor := 5, persistedCursor := 5 }
            ([.success { hash := "h1" } [], .restart, .failure] ++ [.idle])).txCursor ∧
        (runPolls { address := "0xw", txCursor := 5, persistedCursor := 5 }
            [.success { hash := "h1" } [], .restart, .failure]).txCursor <
          (runPolls { address := "0xw", txCursor := 5, persistedCursor := 5 }
            ([.success { hash := "h1" } [], .restart, .failure] ++
              [.success { hash := "h2" } []])).txCursor) :=
  ⟨rfl, cursor_monotonic _ [.success { hash := "h1" } [], .restart, .failure]
    [.idle] { hash := "h2" } [] rfl⟩

end ReguChain

namespace ReguChain

/-- After emitting an event, an alert with its dedup key is present. -/
theorem emitAlert_key_present (s : List Alert) (e : AlertEvent) :
    (emitAlert s e).any (fun a => a.dedupKey == dedupKeyOf e) = true := by
  unfold emitAlert
  split
  · assumption
  · simp

/-- Emitting an event whose dedup key is already present returns the store
unchanged. -/
theorem emitAlert_of_present (s : List Alert) (e : AlertEvent)
    (h : s.any (fun a => a.dedupKey == dedupKeyOf e) = true) :
    emitAlert s e = s := by
  unfold emitAlert
  rw [if_pos h]

/-- Emitting preserves pairwise-distinct dedup keys. -/
theorem emitAlert_pairwise (s : List Alert) (e : AlertEvent)
    (h : s.Pairwise fun a b => a.dedupKey ≠ b.dedupKey) :
    (emitAlert s e).Pairwise fun a b => a.dedupKey ≠ b.dedupKey := by
  unfold emitAlert
  split
  · exact h
  · rename_i hany
    rw [List.pairwise_append]
    refine ⟨h, List.pairwise_singleton _ _, ?_⟩
    intro a ha b hb
    simp only [List.mem_singleton] at hb
    subst hb
    simp only [List.any_eq_true, beq_iff_eq, not_exists, not_and] at hany
    push_neg at hany
    exact hany a ha

/-- Every store reachable from a pairwise-distinct store stays pairwise
distinct. -/
theorem foldl_emitAlert_pairwise (evs : List AlertEvent) : ∀ s : List Alert,
    s.Pairwise (fun a b => a.dedupKey ≠ b.dedupKey) →
    (evs.foldl emitAlert s).Pairwise fun a b => a.dedupKey ≠ b.dedupKey := by
  induction evs with
  | nil => exact fun s h => h
  | cons e evs ih => exact fun s h => ih _ (emitAlert_pairwise s e h)

/-- A store with pairwise-distinct dedup keys holds at most one alert per
key. -/
theorem countP_key_le_one (l : List Alert) (k : String)
    (h : l.Pairwise fun a b => a.dedupKey ≠ b.dedupKey) :
    l.countP (fun a => a.dedupKey == k) ≤ 1 := by
  induction l with
  | nil => simp
  | cons a l ih =>
    obtain ⟨ha, hl⟩ := List.pairwise_cons.mp h
    rw [List.countP_cons]
    by_cases hk : a.dedupKey = k
    · have hzero : l.countP (fun b => b.dedupKey == k) = 0 := by
        rw [List.countP_eq_zero]
        intro b hb
        simp only [beq_iff_eq]
        rw [← hk]
        exact fun hbk => (ha b hb) hbk.symm
      simp [hzero, hk]
    · simp [hk, ih hl]

/-- C3: alert deduplication. In every reachable Alert store (any event
sequence applied to the empty store) each dedup key maps to at most one
Alert; when the key is already present, emitting is the identity on the
store; emitting the same event twice equals emitting it once; after
emitting an event its key maps to exactly one Alert; and two ingestion
cycles that both detect the same event leave exactly one Alert for its
key. -/
theorem alert_dedup (evs : List AlertEvent) (e : AlertEvent)
    (hpresent : (runAlerts evs).any (fun a => a.dedupKey == dedupKeyOf e) = true) :
    (runAlerts evs).Pairwise (fun a b => a.dedupKey ≠ b.dedupKey) ∧
      emitAlert (runAlerts evs) e = runAlerts evs ∧
      emitAlert (emitAlert (runAlerts evs) e) e = emitAlert (runAlerts evs) e ∧
      (emitAlert (runAlerts evs) e).countP (fun a => a.dedupKey == dedupKeyOf e) = 1 ∧
      (runAlerts (evs ++ [e, e])).countP (fun a => a.dedupKey == dedupKeyOf e) = 1 := by
  have hpw : (runAlerts evs).Pairwise fun a b => a.dedupKey ≠ b.dedupKey :=
    foldl_emitAlert_pairwise evs [] (List.Pairwise.nil)
  have hpw1 := emitAlert_pairwise (runAlerts evs) e hpw
  have hidem := emitAlert_of_present (emitAlert (runAlerts evs) e) e
    (emitAlert_key_present (runAlerts evs) e)
  have hcount : (emitAlert (runAlerts evs) e).countP
      (fun a => a.dedupKey == dedupKeyOf e) = 1 := by
    have hle := countP_key_le_one _ (dedupKeyOf e) hpw1
    have hpos : 0 < (emitAlert (runAlerts evs) e).countP
        (fun a => a.dedupKey == dedupKeyOf e) := by
      rw [List.countP_pos_iff]
      simpa [List.any_eq_true] using emitAlert_key_present (runAlerts evs) e
    omega
  refine ⟨hpw, emitAlert_of_present _ e hpresent, hidem, hcount, ?_⟩
  have hrun : runAlerts (evs ++ [e, e]) =
      emitAlert (emitAlert (runAlerts evs) e) e := by
    simp only [runAlerts, List.foldl_append, List.foldl_cons, List.foldl_nil]
  rw [hrun, hidem, hcount]

/-- Witness for C3: re-ingesting one sanctions match for one wallet. -/
theorem alert_dedup_witness :
    (runAlerts [demoSanctionsEvent]).any
        (fun a => a.dedupKey == dedupKeyOf demoSanctionsEvent) = true ∧
      ((runAlerts [demoSanctionsEvent]).Pairwise
          (fun a b => a.dedupKey ≠ b.dedupKey) ∧
        emitAlert (runAlerts [demoSanctionsEvent]) demoSanctionsEvent =
          runAlerts [demoSanctionsEvent] ∧
        emitAlert (emitAlert (runAlerts [demoSanctionsEvent]) demoSanctionsEvent)
            demoSanctionsEvent =
          emitAlert (runAlerts [demoSanctionsEvent]) demoSanctionsEvent ∧
        (emitAlert (runAlerts [demoSanctionsEvent]) demoSanctionsEvent).countP
            (fun a => a.dedupKey == dedupKeyOf demoSanctionsEvent) = 1 ∧
        (runAlerts ([demoSanctionsEvent] ++
            [demoSanctionsEvent, demoSanctionsEvent])).countP
            (fun a => a.dedupKey == dedupKeyOf demoSanctionsEvent) = 1) :=
  ⟨by decide, alert_dedup [demoSanctionsEvent] demoSanctionsEvent (by decide)⟩

end ReguChain

namespace ReguChain

/-- Processing one batch preserves the simulation relation between the two
backends: the incremental table is the fallback seen-id set paired with
payloads, and the two emitted streams coincide. -/
theorem backend_rel_batch (pay : String → String) (batch : List String) :
    ∀ (s : IncState) (t : FbState),
      s.table = t.seen.map (fun i => (i, pay i)) → s.emitted = t.emitted →
      (incStep pay s batch).table =
          (fbStep pay t batch).seen.map (fun i => (i, pay i)) ∧
        (incStep pay s batch).emitted = (fbStep pay t batch).emitted := by
  induction batch with
  | nil => exact fun s t h1 h2 => ⟨h1, h2⟩
  | cons i batch ih =>
    intro s t h1 h2
    have hc : (s.table.map Prod.fst).contains i = t.seen.contains i := by
      rw [h1, List.map_map]
      simp [Function.comp]
    simp only [incStep, fbStep, List.foldl_cons] at *
    rw [hc]
    by_cases hmem : t.seen.contains i = true
    · rw [if_pos hmem, if_pos hmem]
      exact ih s t h1 h2
    · rw [if_neg hmem, if_neg hmem]
      refine ih _ _ ?_ ?_
      · simp [h1]
      · simp [h2]

/-- C6: backend parity. Replaying the same window of connector output
through the incremental backend and through the fallback backend yields the
same final Document/Transaction id set, the same id→payload table, the
same emitted records, and hence the same final Alert set. -/
theorem backend_parity (pay : String → String) (batches : List (List String)) :
    (incRun pay batches).table.map Prod.fst = (fbRun pay batches).seen ∧
      (incRun pay batches).table =
        (fbRun pay batches).seen.map (fun i => (i, pay i)) ∧
      (incRun pay batches).emitted = (fbRun pay batches).emitted ∧
      recordAlerts (incRun pay batches).emitted =
        recordAlerts (fbRun pay batches).emitted := by
  have main : ∀ (bs : List (List String)) (s : IncState) (t : FbState),
      s.table = t.seen.map (fun i => (i, pay i)) → s.emitted = t.emitted →
      (bs.foldl (incStep pay) s).table =
          (bs.foldl (fbStep pay) t).seen.map (fun i => (i, pay i)) ∧
        (bs.foldl (incStep pay) s).emitted = (bs.foldl (fbStep pay) t).emitted := by
    intro bs
    induction bs with
    | nil => exact fun s t h1 h2 => ⟨h1, h2⟩
    | cons b bs ih =>
      intro s t h1 h2
      obtain ⟨h1', h2'⟩ := backend_rel_batch pay b s t h1 h2
      exact ih _ _ h1' h2'
  obtain ⟨h1, h2⟩ := main batches ⟨[], []⟩ ⟨[], []⟩ rfl rfl
  have h1' : (incRun pay batches).table =
      (fbRun pay batches).seen.map (fun i => (i, pay i)) := h1
  have h2' : (incRun pay batches).emitted = (fbRun pay batches).emitted := h2
  refine ⟨?_, h1', h2', by rw [h2']⟩
  have hfst : (Prod.fst ∘ fun i : String => (i, pay i)) = id := rfl
  rw [h1', List.map_map, hfst, List.map_id]

end ReguChain
